import Mathlib

/-!
# Datadog stats exporter (`datadog.go`): embedding and properties

A shallow embedding of the exporter of `src/datadog.go`.

Conventions of the embedding.

* Go `string` is `String`, `int64` is `Int`, `float64` is `Float` and the
  conversion `float64(x)` of an integer is `Float.ofInt x`.
* A Go slice is a `List`; the `nil` slice and the empty slice are both `[]`.
* A Go `map[string]T` is an association list with distinct keys
  (`AList`); `m[k] = v` is `AList.insert`, the two-valued read `m[k]` is
  `AList.lookup`.
* A Go `error` is `Option String`: `none` is the `nil` error, `some msg` an
  error with message `msg`.
* A pointer that may be `nil` on return (`*Exporter`) is an `Option`.
* The statsd client is an external collaborator.  Its state is the address it
  was built for and the sequence of `Gauge` calls it has received; what each
  call returns is given by an arbitrary oracle (`Statsd.gauge`) that sees the
  client (and so the whole history of calls) and the call.
* Go ranges over a map in an unspecified order.  The only map the code ranges
  over is the `metrics` map of `submitMetric`; the order is an explicit
  argument (`RangeOrder`), any function that permutes the entries.
* Mutexes are not modelled: every operation is run to completion, one after
  the other.
* The pointers the code dereferences (the snapshot, its view, the data of a
  row of one of the four known types) are not `nil`; on a `nil` one the Go
  code panics.
-/

namespace Datadog

/-! ## Data model of the collaborators (`tag`, `view`, `statsd`) -/

/-- A tag key (`tag.Key`): a name. -/
structure Key where
  name : String
deriving DecidableEq, Repr

/-- The method `Name` of `tag.Key`. -/
def Key.Name (k : Key) : String := k.name

/-- A tag (`tag.Tag`): a key and a value. -/
structure Tag where
  Key : Key
  Value : String
deriving DecidableEq, Repr

/-- The aggregation of a view (`view.Aggregation`); only its dynamic type, as
the verb `%T` prints it, is read by the exporter. -/
structure Aggregation where
  goType : String
deriving DecidableEq, Repr

/-- A view (`view.View`): the fields the exporter reads, and the measure name
standing for the fields it does not. -/
structure View where
  Name : String
  Description : String
  TagKeys : List Key
  Measure : String
  Aggregation : Aggregation
deriving DecidableEq, Repr

/-- The dynamic type of `row.Data` (`view.AggregationData`): the four data
types of package `view`, any other implementation of the interface (`other`,
with its type), or the `nil` interface value (`absent`). -/
inductive AggregationData where
  | CountData (Value : Int)
  | SumData (Value : Float)
  | LastValueData (Value : Float)
  | DistributionData (Count : Int) (Min Max Mean SumOfSquaredDev : Float)
      (CountPerBucket : List Int)
  | other (goType : String)
  | absent

/-- A row (`view.Row`). -/
structure Row where
  Tags : List Tag
  Data : AggregationData

/-- A snapshot (`view.Data`): a view and its rows. -/
structure Data where
  View : View
  Rows : List Row

/-- One call `client.Gauge(name, value, tags, rate)`. -/
structure GaugeCall where
  name : String
  value : Float
  tags : List String
  rate : Float

/-- A statsd client: the address it was built for and the `Gauge` calls it
has received, oldest first. -/
structure Client where
  addr : String
  sent : List GaugeCall

/-- The behaviour of package `statsd`, which is not part of the repository:
whether `statsd.New(addr)` fails, and what each `Gauge` call returns. -/
structure Statsd where
  newErr : String → Option String
  gauge : Client → GaugeCall → Option String

/-- The method `Gauge` of the client: the call is recorded and the oracle
gives the returned error. -/
def Client.Gauge (T : Statsd) (c : Client) (name : String) (value : Float)
    (tags : List String) (rate : Float) : Client × Option String :=
  let call : GaugeCall := { name := name, value := value, tags := tags, rate := rate }
  ({ c with sent := c.sent ++ [call] }, T.gauge c call)

/-- An iteration order of a Go map with string keys and float values: any
function that returns the entries permuted. -/
structure RangeOrder where
  order : List (String × Float) → List (String × Float)
  perm : ∀ l, (order l).Perm l

/-- The iteration order that visits the entries as written. -/
def RangeOrder.asWritten : RangeOrder where
  order := fun l => l
  perm := fun l => List.Perm.refl l

/-- The iteration order that visits the entries last to first. -/
def RangeOrder.reversed : RangeOrder where
  order := fun l => l.reverse
  perm := fun l => List.reverse_perm l

/-! ## The exporter (`datadog.go`) -/

/-- Options of the exporter.  `OnError` is the optional hook, known by an
identifier; `none` is the `nil` function. -/
structure Options where
  Namespace : String
  Endpoint : String
  OnError : Option Nat
  Tags : List String
deriving DecidableEq, Repr

/-- The collector: options, the flag `skipErrors`, the last snapshot per
signature and the registered description per signature. -/
structure collector where
  opts : Options
  skipErrors : Bool
  viewData : AList (fun _ : String => Data)
  registeredViews : AList (fun _ : String => String)

/-- The exporter: options, collector and statsd client. -/
structure Exporter where
  opts : Options
  c : collector
  d : Client

/-- The error `errSingletonExporter`. -/
def errSingletonExporter : String := "expecting only one exporter per instance"

/-- Function `newCollector`. -/
def newCollector (o : Options) : collector :=
  { opts := o, skipErrors := false, registeredViews := ∅, viewData := ∅ }

/-- Function `viewName`. -/
def viewName (namespace_ : String) (v : View) : String :=
  let name := if namespace_ ≠ "" then namespace_ ++ "." else ""
  name ++ v.Name

/-- Function `viewSignature`: the buffer receives the view name and then, for
each tag key in order, an underscore and the key name. -/
def viewSignature (namespace_ : String) (v : View) : String :=
  v.TagKeys.foldl (fun buf k => buf ++ ("_" ++ k.Name)) (viewName namespace_ v)

/-- Method `registerViews`: the loop threads the collector and `count`. -/
def collector.registerViews (c : collector) (views : List View) : collector :=
  let r := views.foldl
    (fun (st : collector × Nat) view =>
      let sig := viewSignature st.1.opts.Namespace view
      match st.1.registeredViews.lookup sig with
      | some _ => st
      | none =>
        let metadata := view.Description
        ({ st.1 with registeredViews := st.1.registeredViews.insert sig metadata },
          st.2 + 1))
    (c, 0)
  if r.2 = 0 then r.1 else r.1

/-- One round of the loop of `registerViews`, on the collector alone. -/
def collector.registerOne (c : collector) (view : View) : collector :=
  match c.registeredViews.lookup (viewSignature c.opts.Namespace view) with
  | some _ => c
  | none =>
    { c with registeredViews :=
        c.registeredViews.insert (viewSignature c.opts.Namespace view) view.Description }

/-- Function `tagMetrics`: `names` collects the key names; each round of the
second loop assigns `append(names, ctag)` to `finaltag`. -/
def tagMetrics (t : List Tag) (ct : List String) : List String :=
  let names := t.foldl (fun names tag => names ++ [tag.Key.Name]) []
  let finaltag := ct.foldl (fun _ ctag => names ++ [ctag]) []
  finaltag

/-- Function `submitMetric`: the client after the calls and the returned
error.  In the distribution case both loops thread the client and `err`. -/
def submitMetric (T : Statsd) (ord : RangeOrder) (client : Client) (v : View)
    (row : Row) : Client × Option String :=
  let tags : List String := [] ++ ["source:Opencensus"]
  let rate : Int := 1
  match row.Data with
  | .CountData value =>
    client.Gauge T v.Name (Float.ofInt value) (tagMetrics row.Tags tags) (Float.ofInt rate)
  | .SumData value =>
    client.Gauge T v.Name value (tagMetrics row.Tags tags) (Float.ofInt rate)
  | .LastValueData value =>
    client.Gauge T v.Name value (tagMetrics row.Tags tags) (Float.ofInt rate)
  | .DistributionData count min max mean sumOfSquaredDev countPerBucket =>
    let metrics : List (String × Float) :=
      [("min", min), ("max", max), ("count", Float.ofInt count), ("avg", mean),
        ("squared_dev_sum", sumOfSquaredDev)]
    let s1 := (ord.order metrics).foldl
      (fun (st : Client × Option String) nv =>
        st.1.Gauge T (v.Name ++ "." ++ nv.1) nv.2 (tagMetrics row.Tags tags)
          (Float.ofInt rate))
      (client, none)
    let s2 := countPerBucket.enum.foldl
      (fun (st : Client × Option String) xb =>
        let bucketTags := tags ++ ["bucket_idx" ++ toString xb.1]
        st.1.Gauge T (v.Name ++ ".count_per_bucket") (Float.ofInt xb.2)
          (tagMetrics row.Tags bucketTags) (Float.ofInt rate))
      s1
    s2
  | _ => (client, some ("aggregation " ++ v.Aggregation.goType ++ " is not supported"))

/-- Method `addViewData`: the view is registered, the snapshot stored under
its signature, and every row submitted in order; the error of each
`submitMetric` is dropped.  `ords i` is the iteration order of the `metrics`
map in the submission of row `i`. -/
def collector.addViewData (T : Statsd) (ords : Nat → RangeOrder) (c : collector)
    (vd : Data) (client : Client) : collector × Client :=
  let c1 := c.registerViews [vd.View]
  let sig := viewSignature c1.opts.Namespace vd.View
  let c2 := { c1 with viewData := c1.viewData.insert sig vd }
  let client2 := vd.Rows.enum.foldl
    (fun (cl : Client) ir => (submitMetric T (ords ir.1) cl vd.View ir.2).1)
    client
  (c2, client2)

/-- Method `ExportView`. -/
def Exporter.ExportView (T : Statsd) (ords : Nat → RangeOrder) (e : Exporter)
    (vd : Data) : Exporter :=
  if vd.Rows.length = 0 then e
  else
    let r := e.c.addViewData T ords vd e.d
    { e with c := r.1, d := r.2 }

/-- What a call of `onError` does: it calls the hook, or writes to the log. -/
inductive Report where
  | hook (id : Nat) (err : String)
  | logged (msg : String)
deriving DecidableEq, Repr

/-- Method `onError` of the options. -/
def Options.onError (o : Options) (err : String) : Report :=
  match o.OnError with
  | some h => .hook h err
  | none => .logged ("Failed to export to Datadog: " ++ err ++ "\n")

/-- The process-wide state `NewExporter` acts on: the done flag of
`newExporterOnce`, the format strings passed to `fmt.Printf`, and the addresses
of the statsd clients constructed so far. -/
structure Process where
  onceDone : Bool
  printed : List String
  clients : List String

/-- A process in which `NewExporter` was never called. -/
def Process.fresh : Process := { onceDone := false, printed := [], clients := [] }

/-- Function `newExporter`.  The result `none` is `log.Fatal`: the process
exits and the call does not return. -/
def newExporter (T : Statsd) (p : Process) (o : Options) :
    Option ((Option Exporter × Option String) × Process) :=
  let endpoint := if o.Endpoint = "" then "127.0.0.1:8125" else o.Endpoint
  let p1 := { p with printed := p.printed ++ [endpoint] }
  match T.newErr endpoint with
  | some _ => none
  | none =>
    let client : Client := { addr := endpoint, sent := [] }
    let p2 := { p1 with clients := p1.clients ++ [endpoint] }
    let collector := newCollector o
    let e : Exporter := { opts := o, c := collector, d := client }
    some ((some e, none), p2)

/-- Function `NewExporter`: `newExporterOnce.Do` runs `newExporter` when the
gate is open and shuts the gate; otherwise the initial values of `exporter`
and `err` are returned. -/
def NewExporter (T : Statsd) (p : Process) (o : Options) :
    Option ((Option Exporter × Option String) × Process) :=
  if p.onceDone then some ((none, some errSingletonExporter), p)
  else
    match newExporter T p o with
    | none => none
    | some (r, p1) => some (r, { p1 with onceDone := true })

/-- A sequence of calls of `NewExporter`, one per element of `os`: the
results of the calls that return, in order (a call that exits the process
ends the sequence). -/
def NewExporterCalls (T : Statsd) : Process → List Options →
    List (Option Exporter × Option String)
  | _, [] => []
  | p, o :: os =>
    match NewExporter T p o with
    | none => []
    | some (r, p1) => r :: NewExporterCalls T p1 os

/-- The process state after a sequence of calls of `NewExporter`, `none` when
one of them exits the process. -/
def NewExporterState (T : Statsd) : Process → List Options → Option Process
  | p, [] => some p
  | p, o :: os =>
    match NewExporter T p o with
    | none => none
    | some (_, p1) => NewExporterState T p1 os

/-! ## Sequences of calls on a collector -/

/-- A call that acts on a collector: `registerViews`, `addViewData`, or
`ExportView` on an exporter that holds the collector (with any options and
client). -/
inductive collector.Call where
  | registerViews (views : List View)
  | addViewData (T : Statsd) (ords : Nat → RangeOrder) (vd : Data) (client : Client)
  | ExportView (T : Statsd) (ords : Nat → RangeOrder) (opts : Options) (d : Client)
      (vd : Data)

/-- The collector after a call. -/
def collector.after (c : collector) : collector.Call → collector
  | .registerViews views => c.registerViews views
  | .addViewData T ords vd client => (c.addViewData T ords vd client).1
  | .ExportView T ords opts d vd =>
    (Exporter.ExportView T ords { opts := opts, c := c, d := d } vd).c

/-- The collector after a sequence of calls, first to last. -/
def collector.afterAll (c : collector) (calls : List collector.Call) : collector :=
  calls.foldl collector.after c

/-! ## Values used in the examples -/

/-- A view `latency` without tag keys. -/
def latencyView : View :=
  { Name := "latency", Description := "", TagKeys := [], Measure := "ms",
    Aggregation := { goType := "*view.Aggregation" } }

/-- A view `a` with the one tag key `b_c`. -/
def viewA : View :=
  { Name := "a", Description := "first", TagKeys := [{ name := "b_c" }], Measure := "ms",
    Aggregation := { goType := "*view.Aggregation" } }

/-- A view `a_b` with the one tag key `c`. -/
def viewAB : View :=
  { Name := "a_b", Description := "second", TagKeys := [{ name := "c" }], Measure := "ms",
    Aggregation := { goType := "*view.Aggregation" } }

/-- A statsd client whose every call fails, but for the calls tagged
`bucket_idx1` alone. -/
def statsdMostlyDown : Statsd :=
  { newErr := fun _ => none,
    gauge := fun _ call => if call.tags = ["bucket_idx1"] then none else some "down" }

/-! ## Lemmas on the loops -/

/-- The first loop of `tagMetrics` appends the key names, in order. -/
theorem names_loop (t : List Tag) (acc : List String) :
    t.foldl (fun names tag => names ++ [tag.Key.Name]) acc
      = acc ++ t.map (fun tag => tag.Key.Name) := by
  induction t generalizing acc with
  | nil => simp
  | cons a t ih => simp [List.foldl_cons, ih]

/-- With no base tag, `tagMetrics` returns the `nil` slice. -/
theorem tagMetrics_no_base (t : List Tag) : tagMetrics t [] = [] := rfl

/-- With a base list that ends in `x`, `tagMetrics` returns the key names
followed by `x` alone. -/
theorem tagMetrics_last_base (t : List Tag) (ct : List String) (x : String) :
    tagMetrics t (ct ++ [x]) = t.map (fun tag => tag.Key.Name) ++ [x] := by
  simp [tagMetrics, List.foldl_append, names_loop]

/-- With the single base tag `x`, `tagMetrics` returns the key names followed
by `x`. -/
theorem tagMetrics_one_base (t : List Tag) (x : String) :
    tagMetrics t [x] = t.map (fun tag => tag.Key.Name) ++ [x] :=
  tagMetrics_last_base t [] x

/-- A loop whose every round makes the one call `g x` leaves the client with
the calls `g x`, for `x` in order, added to its log. -/
theorem loop_sent {α : Type} (f : Client × Option String → α → Client × Option String)
    (g : α → GaugeCall)
    (hf : ∀ st x, (f st x).1 = { st.1 with sent := st.1.sent ++ [g x] })
    (xs : List α) (st : Client × Option String) :
    (xs.foldl f st).1 = { st.1 with sent := st.1.sent ++ xs.map g } := by
  induction xs generalizing st with
  | nil => simp
  | cons x xs ih => simp [List.foldl_cons, ih, hf]

/-! ## `submitMetric` -/

/-- C1: for a row whose data is a Count, Sum or LastValue with value `x` (for
a Count, `x` is the count converted to `float64`), `submitMetric` makes exactly
one Gauge call: the log of the client grows by the single call with name
`v.Name`, value `x`, the row's tag key names in order followed by
`source:Opencensus` as tags, and sample rate 1; the error it returns is the
result of that call. -/
theorem submitMetric_single_value (T : Statsd) (ord : RangeOrder) (client : Client)
    (v : View) (row : Row) (n : Int) (x : Float)
    (h : (row.Data = .CountData n ∧ x = Float.ofInt n) ∨ row.Data = .SumData x
      ∨ row.Data = .LastValueData x) :
    (submitMetric T ord client v row).1.sent
        = client.sent ++ [{
            name := v.Name, value := x,
            tags := row.Tags.map (fun tag => tag.Key.Name) ++ ["source:Opencensus"],
            rate := Float.ofInt 1 }]
      ∧ (submitMetric T ord client v row).1.addr = client.addr
      ∧ (submitMetric T ord client v row).2
        = T.gauge client {
            name := v.Name, value := x,
            tags := row.Tags.map (fun tag => tag.Key.Name) ++ ["source:Opencensus"],
            rate := Float.ofInt 1 } := by
  rcases h with ⟨h, hx⟩ | h | h
  · simp [submitMetric, h, Client.Gauge, tagMetrics_one_base, hx]
  · simp [submitMetric, h, Client.Gauge, tagMetrics_one_base]
  · simp [submitMetric, h, Client.Gauge, tagMetrics_one_base]

/-- C1, at a Count row with two tags. -/
theorem submitMetric_single_value_witness :
    (submitMetric { newErr := fun _ => none, gauge := fun _ _ => some "down" }
        RangeOrder.asWritten { addr := "127.0.0.1:8125", sent := [] }
        { Name := "latency", Description := "", TagKeys := [], Measure := "ms",
          Aggregation := { goType := "*view.Aggregation" } }
        { Tags := [{ Key := { name := "a" }, Value := "1" },
            { Key := { name := "b" }, Value := "2" }],
          Data := .CountData 7 }).1.sent
      = [{ name := "latency", value := Float.ofInt 7,
           tags := ["a", "b", "source:Opencensus"], rate := Float.ofInt 1 }] :=
  (submitMetric_single_value _ RangeOrder.asWritten
    { addr := "127.0.0.1:8125", sent := [] } _ _ 7 (Float.ofInt 7)
    (Or.inl ⟨rfl, rfl⟩)).1

/-- C2: for a Distribution row with bucket counts `b`, `submitMetric` adds to
the log of the client exactly `5 + b.length` Gauge calls, all at sample rate 1:
first, in the iteration order of the map, one call each for the suffixes
`.min`, `.max`, `.count`, `.avg` and `.squared_dev_sum` with the values Min, Max,
Count, Mean and SumOfSquaredDev, then one call `.count_per_bucket` per bucket
in increasing index order with the bucket's count as value.  The statement
holds for every result oracle of the client, so no call depends on an earlier
call having succeeded. -/
theorem submitMetric_distribution_calls (T : Statsd) (ord : RangeOrder)
    (client : Client) (v : View) (row : Row) (count : Int)
    (min max mean sumOfSquaredDev : Float) (b : List Int)
    (h : row.Data = .DistributionData count min max mean sumOfSquaredDev b) :
    ∃ scalars : List GaugeCall,
      scalars.Perm
        [{ name := v.Name ++ ".min", value := min,
            tags := tagMetrics row.Tags ["source:Opencensus"], rate := Float.ofInt 1 },
          { name := v.Name ++ ".max", value := max,
            tags := tagMetrics row.Tags ["source:Opencensus"], rate := Float.ofInt 1 },
          { name := v.Name ++ ".count", value := Float.ofInt count,
            tags := tagMetrics row.Tags ["source:Opencensus"], rate := Float.ofInt 1 },
          { name := v.Name ++ ".avg", value := mean,
            tags := tagMetrics row.Tags ["source:Opencensus"], rate := Float.ofInt 1 },
          { name := v.Name ++ ".squared_dev_sum", value := sumOfSquaredDev,
            tags := tagMetrics row.Tags ["source:Opencensus"], rate := Float.ofInt 1 }]
      ∧ (submitMetric T ord client v row).1.sent
          = client.sent ++ scalars ++ b.enum.map (fun xb =>
              { name := v.Name ++ ".count_per_bucket", value := Float.ofInt xb.2,
                tags := tagMetrics row.Tags
                  ["source:Opencensus", "bucket_idx" ++ toString xb.1],
                rate := Float.ofInt 1 })
      ∧ (submitMetric T ord client v row).1.sent.length
          = client.sent.length + (5 + b.length)
      ∧ ∀ i, (hi : i < b.length) →
          ((submitMetric T ord client v row).1.sent.drop
              (client.sent.length + 5 + i)).head?
            = some {
                name := v.Name ++ ".count_per_bucket",
                value := Float.ofInt b[i],
                tags := tagMetrics row.Tags
                  ["source:Opencensus", "bucket_idx" ++ toString i],
                rate := Float.ofInt 1 } := by
  have hsent : (submitMetric T ord client v row).1.sent
      = client.sent
        ++ (ord.order [("min", min), ("max", max), ("count", Float.ofInt count),
            ("avg", mean), ("squared_dev_sum", sumOfSquaredDev)]).map (fun nv =>
              ({ name := v.Name ++ "." ++ nv.1, value := nv.2,
                 tags := tagMetrics row.Tags ["source:Opencensus"],
                 rate := Float.ofInt 1 } : GaugeCall))
        ++ b.enum.map (fun xb =>
              ({ name := v.Name ++ ".count_per_bucket", value := Float.ofInt xb.2,
                 tags := tagMetrics row.Tags
                   ["source:Opencensus", "bucket_idx" ++ toString xb.1],
                 rate := Float.ofInt 1 } : GaugeCall)) := by
    simp only [submitMetric, h]
    rw [loop_sent _ _ (fun _ _ => rfl), loop_sent _ _ (fun _ _ => rfl)]
    rfl
  have hperm := (ord.perm [("min", min), ("max", max), ("count", Float.ofInt count),
      ("avg", mean), ("squared_dev_sum", sumOfSquaredDev)]).map (fun nv =>
        ({ name := v.Name ++ "." ++ nv.1, value := nv.2,
           tags := tagMetrics row.Tags ["source:Opencensus"],
           rate := Float.ofInt 1 } : GaugeCall))
  rw [show List.map (fun nv : String × Float =>
        ({ name := v.Name ++ "." ++ nv.1, value := nv.2,
           tags := tagMetrics row.Tags ["source:Opencensus"],
           rate := Float.ofInt 1 } : GaugeCall))
        [("min", min), ("max", max), ("count", Float.ofInt count),
          ("avg", mean), ("squared_dev_sum", sumOfSquaredDev)]
      = [{ name := v.Name ++ ".min", value := min,
            tags := tagMetrics row.Tags ["source:Opencensus"], rate := Float.ofInt 1 },
          { name := v.Name ++ ".max", value := max,
            tags := tagMetrics row.Tags ["source:Opencensus"], rate := Float.ofInt 1 },
          { name := v.Name ++ ".count", value := Float.ofInt count,
            tags := tagMetrics row.Tags ["source:Opencensus"], rate := Float.ofInt 1 },
          { name := v.Name ++ ".avg", value := mean,
            tags := tagMetrics row.Tags ["source:Opencensus"], rate := Float.ofInt 1 },
          { name := v.Name ++ ".squared_dev_sum", value := sumOfSquaredDev,
            tags := tagMetrics row.Tags ["source:Opencensus"], rate := Float.ofInt 1 }]
      from by
        simp only [List.map_cons, List.map_nil, String.append_assoc]
        rfl] at hperm
  generalize List.map _ (ord.order _) = scalars at hsent hperm
  have hlen : scalars.length = 5 := by simpa using hperm.length_eq
  refine ⟨scalars, hperm, hsent, ?_, ?_⟩
  · rw [hsent]
    simp [hlen]
  · intro i hi
    rw [hsent, List.append_assoc, Nat.add_assoc, List.drop_append, ← hlen,
      List.drop_append]
    simp [List.head?_drop, hi]

/-- C2, at the distribution min 1, max 9, count 4, mean 5, squared deviation
sum 20 and bucket counts 1, 2, 1, with a client whose every call fails: eight
calls are made. -/
theorem submitMetric_distribution_calls_witness :
    (submitMetric { newErr := fun _ => none, gauge := fun _ _ => some "down" }
        RangeOrder.reversed { addr := "127.0.0.1:8125", sent := [] }
        { Name := "latency", Description := "", TagKeys := [], Measure := "ms",
          Aggregation := { goType := "*view.Aggregation" } }
        { Tags := [], Data := .DistributionData 4 1 9 5 20 [1, 2, 1] }).1.sent.length
      = 0 + (5 + 3) :=
  match submitMetric_distribution_calls
      { newErr := fun _ => none, gauge := fun _ _ => some "down" }
      RangeOrder.reversed { addr := "127.0.0.1:8125", sent := [] }
      { Name := "latency", Description := "", TagKeys := [], Measure := "ms",
        Aggregation := { goType := "*view.Aggregation" } }
      { Tags := [], Data := .DistributionData 4 1 9 5 20 [1, 2, 1] }
      4 1 9 5 20 [1, 2, 1] rfl with
  | ⟨_, _, _, hlen, _⟩ => hlen

/-- C3: the tags of the bucket calls.  Whatever the row tags and the bucket
index, `tagMetrics` applied to the bucket tag list `source:Opencensus`,
`bucket_idx<i>` returns the row's key names followed by `bucket_idx<i>` only.
At a row with the one tag key `a` and one bucket, the six calls carry the tags
below: the bucket call has `a` and `bucket_idx0` and no `source:Opencensus`. -/
theorem submitMetric_bucket_tags_lose_source :
    (∀ (t : List Tag) (i : Nat),
        tagMetrics t (["source:Opencensus"] ++ ["bucket_idx" ++ toString i])
          = t.map (fun tag => tag.Key.Name) ++ ["bucket_idx" ++ toString i])
      ∧ (submitMetric { newErr := fun _ => none, gauge := fun _ _ => none }
          RangeOrder.asWritten { addr := "127.0.0.1:8125", sent := [] }
          { Name := "latency", Description := "", TagKeys := [{ name := "a" }],
            Measure := "ms", Aggregation := { goType := "*view.Aggregation" } }
          { Tags := [{ Key := { name := "a" }, Value := "1" }],
            Data := .DistributionData 4 1 9 5 20 [4] }).1.sent.map (fun c => c.tags)
        = [["a", "source:Opencensus"], ["a", "source:Opencensus"],
            ["a", "source:Opencensus"], ["a", "source:Opencensus"],
            ["a", "source:Opencensus"], ["a", "bucket_idx0"]]
      ∧ "source:Opencensus" ∉ ["a", "bucket_idx0"] := by
  refine ⟨fun t i => tagMetrics_last_base t _ _, by decide, by decide⟩

/-! ## `tagMetrics` -/

/-- C4: `tagMetrics` at base lists of length 2 and 0.  With the row key `a`
and the base tags `x`, `y` the result is `a`, `y`, not `a`, `x`, `y`; with the
row key `a` and no base tag the result is empty, not `a`. -/
theorem tagMetrics_drops_base_tags :
    tagMetrics [{ Key := { name := "a" }, Value := "1" }] ["x", "y"] = ["a", "y"]
      ∧ tagMetrics [{ Key := { name := "a" }, Value := "1" }] ["x", "y"]
          ≠ ["a"] ++ ["x", "y"]
      ∧ tagMetrics [{ Key := { name := "a" }, Value := "1" }] [] = []
      ∧ tagMetrics [{ Key := { name := "a" }, Value := "1" }] [] ≠ ["a"] ++ [] := by
  decide

/-- C5: for a row whose data is none of Count, Sum, LastValue and Distribution
(another type, or no data at all), `submitMetric` leaves the client as it was,
so it makes no Gauge call, and returns the error `aggregation <type> is not
supported`, which is not `nil`. -/
theorem submitMetric_unsupported (T : Statsd) (ord : RangeOrder) (client : Client)
    (v : View) (row : Row)
    (hc : ∀ x, row.Data ≠ .CountData x) (hs : ∀ x, row.Data ≠ .SumData x)
    (hl : ∀ x, row.Data ≠ .LastValueData x)
    (hd : ∀ n mn mx me sq b, row.Data ≠ .DistributionData n mn mx me sq b) :
    (submitMetric T ord client v row).1 = client
      ∧ (submitMetric T ord client v row).2
          = some ("aggregation " ++ v.Aggregation.goType ++ " is not supported")
      ∧ (submitMetric T ord client v row).2 ≠ none := by
  rcases row with ⟨tags, data⟩
  cases data with
  | CountData x => exact absurd rfl (hc x)
  | SumData x => exact absurd rfl (hs x)
  | LastValueData x => exact absurd rfl (hl x)
  | DistributionData n mn mx me sq b => exact absurd rfl (hd n mn mx me sq b)
  | other ty => simp [submitMetric]
  | absent => simp [submitMetric]

/-- C5, at a row without data and a client that has already received a call. -/
theorem submitMetric_unsupported_witness :
    (submitMetric { newErr := fun _ => none, gauge := fun _ _ => none }
        RangeOrder.asWritten
        { addr := "127.0.0.1:8125",
          sent := [{ name := "up", value := 1, tags := [], rate := 1 }] }
        { Name := "latency", Description := "", TagKeys := [], Measure := "ms",
          Aggregation := { goType := "*view.Aggregation" } }
        { Tags := [], Data := .absent }).1.sent.length = 1
      ∧ (submitMetric { newErr := fun _ => none, gauge := fun _ _ => none }
        RangeOrder.asWritten
        { addr := "127.0.0.1:8125",
          sent := [{ name := "up", value := 1, tags := [], rate := 1 }] }
        { Name := "latency", Description := "", TagKeys := [], Measure := "ms",
          Aggregation := { goType := "*view.Aggregation" } }
        { Tags := [], Data := .absent }).2
        = some "aggregation *view.Aggregation is not supported" :=
  have h := submitMetric_unsupported { newErr := fun _ => none, gauge := fun _ _ => none }
    RangeOrder.asWritten
    { addr := "127.0.0.1:8125",
      sent := [{ name := "up", value := 1, tags := [], rate := 1 }] }
    { Name := "latency", Description := "", TagKeys := [], Measure := "ms",
      Aggregation := { goType := "*view.Aggregation" } }
    { Tags := [], Data := .absent }
    (fun _ h => by cases h) (fun _ h => by cases h) (fun _ h => by cases h)
    (fun _ _ _ _ _ _ h => by cases h)
  ⟨by rw [h.1]; rfl, by rw [h.2.1]; decide⟩

/-! ## The collector -/

/-- The first component of a loop on pairs, when each round computes it
from the first component alone. -/
theorem foldl_fst {σ α β : Type} (f : σ × β → α → σ × β) (g : σ → α → σ)
    (hf : ∀ st a, (f st a).1 = g st.1 a) (xs : List α) (st : σ × β) :
    (xs.foldl f st).1 = xs.foldl g st.1 := by
  induction xs generalizing st with
  | nil => rfl
  | cons x xs ih => rw [List.foldl_cons, List.foldl_cons, ih, hf]

/-- The loop of `registerViews` does to the collector what `registerOne` does,
view after view; the counter has no influence on it. -/
theorem registerViews_eq_foldl (c : collector) (views : List View) :
    c.registerViews views = views.foldl collector.registerOne c := by
  unfold collector.registerViews
  simp only [ite_self]
  refine foldl_fst _ _ ?_ views (c, 0)
  intro st v
  unfold collector.registerOne
  cases st.1.registeredViews.lookup (viewSignature st.1.opts.Namespace v) <;> rfl

/-- Registering the views of a list is registering its head, then its tail. -/
theorem registerViews_cons (c : collector) (v : View) (vs : List View) :
    c.registerViews (v :: vs) = (c.registerViews [v]).registerViews vs := by
  simp [registerViews_eq_foldl]

/-- A round of `registerViews` leaves the options as they were. -/
theorem registerOne_opts (c : collector) (v : View) : (c.registerOne v).opts = c.opts := by
  unfold collector.registerOne
  cases c.registeredViews.lookup (viewSignature c.opts.Namespace v) <;> rfl

/-- A round of `registerViews` leaves the snapshots as they were. -/
theorem registerOne_viewData (c : collector) (v : View) :
    (c.registerOne v).viewData = c.viewData := by
  unfold collector.registerOne
  cases c.registeredViews.lookup (viewSignature c.opts.Namespace v) <;> rfl

/-- A round of `registerViews` on a registered signature changes nothing. -/
theorem registerOne_of_registered (c : collector) (v : View) (d : String)
    (h : c.registeredViews.lookup (viewSignature c.opts.Namespace v) = some d) :
    c.registerOne v = c := by
  unfold collector.registerOne
  rw [h]

/-- After a round of `registerViews` the signature of the view holds the
description it had, or the description of the view when it had none. -/
theorem registerOne_lookup (c : collector) (v : View) :
    (c.registerOne v).registeredViews.lookup (viewSignature c.opts.Namespace v)
      = some ((c.registeredViews.lookup (viewSignature c.opts.Namespace v)).getD
          v.Description) := by
  unfold collector.registerOne
  cases h : c.registeredViews.lookup (viewSignature c.opts.Namespace v) with
  | none => simp [AList.lookup_insert]
  | some d => simp [h]

/-- A key that a map holds occurs exactly once among its keys. -/
theorem keys_count_of_lookup {β : Type} (m : AList (fun _ : String => β)) (k : String)
    (b : β) (h : m.lookup k = some b) : m.keys.count k = 1 := by
  have hmem : k ∈ m.keys := by
    rw [← AList.mem_keys, ← AList.lookup_isSome, h]
    rfl
  exact List.count_eq_one_of_mem m.keys_nodup hmem

/-- C6: `registerViews` is idempotent and first-write-wins.  For two views
with the same signature, registering the first and then the second, in one call
or in two, leaves exactly one entry for the signature; the entry holds the
description stored before, or the description of the first view when there was
none; the registration of the second view changes nothing, and neither does
any further registration of the two. -/
theorem registerViews_first_write_wins (c : collector) (V1 V2 : View)
    (h : viewSignature c.opts.Namespace V1 = viewSignature c.opts.Namespace V2) :
    c.registerViews [V1, V2] = (c.registerViews [V1]).registerViews [V2]
      ∧ (c.registerViews [V1, V2]).registeredViews.keys.count
          (viewSignature c.opts.Namespace V1) = 1
      ∧ (c.registerViews [V1, V2]).registeredViews.lookup
          (viewSignature c.opts.Namespace V1)
          = some ((c.registeredViews.lookup (viewSignature c.opts.Namespace V1)).getD
              V1.Description)
      ∧ c.registerViews [V1, V2] = c.registerViews [V1]
      ∧ (c.registerViews [V1, V2]).registerViews [V1] = c.registerViews [V1, V2]
      ∧ (c.registerViews [V1, V2]).registerViews [V2] = c.registerViews [V1, V2]
      ∧ (c.registerViews [V1, V2]).registerViews [V1, V2] = c.registerViews [V1, V2] := by
  have h1 : c.registerViews [V1] = c.registerOne V1 := by simp [registerViews_eq_foldl]
  have hl := registerOne_lookup c V1
  have hV1 : (c.registerOne V1).registerOne V1 = c.registerOne V1 :=
    registerOne_of_registered _ _ _ (by rw [registerOne_opts]; exact hl)
  have hV2 : (c.registerOne V1).registerOne V2 = c.registerOne V1 :=
    registerOne_of_registered _ _ _ (by rw [registerOne_opts, ← h]; exact hl)
  have h2 : c.registerViews [V1, V2] = c.registerOne V1 := by
    simp [registerViews_eq_foldl, hV2]
  refine ⟨registerViews_cons c V1 [V2], ?_, ?_, ?_, ?_, ?_, ?_⟩
  · rw [h2]; exact keys_count_of_lookup _ _ _ hl
  · rw [h2]; exact hl
  · rw [h2, h1]
  · rw [h2]; simp [registerViews_eq_foldl, hV1]
  · rw [h2]; simp [registerViews_eq_foldl, hV2]
  · rw [h2]; simp [registerViews_eq_foldl, hV1, hV2]

/-- C6, at a collector without registrations and two views `latency` with
the tag key `a` and the descriptions `first` and `second`. -/
theorem registerViews_first_write_wins_witness :
    ((newCollector { Namespace := "app", Endpoint := "", OnError := none, Tags := [] }
        ).registerViews
        [{ Name := "latency", Description := "first", TagKeys := [{ name := "a" }],
            Measure := "ms", Aggregation := { goType := "*view.Aggregation" } },
          { Name := "latency", Description := "second", TagKeys := [{ name := "a" }],
            Measure := "s", Aggregation := { goType := "*view.Aggregation" } }]
        ).registeredViews.lookup "app.latency_a" = some "first" :=
  (registerViews_first_write_wins
    (newCollector { Namespace := "app", Endpoint := "", OnError := none, Tags := [] })
    { Name := "latency", Description := "first", TagKeys := [{ name := "a" }],
      Measure := "ms", Aggregation := { goType := "*view.Aggregation" } }
    { Name := "latency", Description := "second", TagKeys := [{ name := "a" }],
      Measure := "s", Aggregation := { goType := "*view.Aggregation" } }
    (by decide)).2.2.1

/-- What `addViewData` does to the collector: a round of `registerViews` for
the view, then the snapshot stored under the signature. -/
theorem addViewData_collector (T : Statsd) (ords : Nat → RangeOrder) (c : collector)
    (vd : Data) (client : Client) :
    (c.addViewData T ords vd client).1
      = { c.registerOne vd.View with
          viewData := (c.registerOne vd.View).viewData.insert
            (viewSignature c.opts.Namespace vd.View) vd } := by
  simp [collector.addViewData, registerViews_eq_foldl, registerOne_opts]

/-- C7: `addViewData` is last-write-wins per signature.  After `addViewData`
for `vd1` and then for `vd2`, whose views have the same signature, the snapshot
map holds `vd2` under that signature, in exactly one entry, and so does not hold
`vd1` when the two differ; under every other signature it holds what it held
before the two calls. -/
theorem addViewData_last_write_wins (T : Statsd) (ords1 ords2 : Nat → RangeOrder)
    (c : collector) (vd1 vd2 : Data) (client1 client2 : Client)
    (h : viewSignature c.opts.Namespace vd1.View
      = viewSignature c.opts.Namespace vd2.View) :
    (((c.addViewData T ords1 vd1 client1).1.addViewData T ords2 vd2 client2).1.viewData.lookup
        (viewSignature c.opts.Namespace vd1.View) = some vd2)
      ∧ (vd1 ≠ vd2 →
          ((c.addViewData T ords1 vd1 client1).1.addViewData T ords2 vd2 client2
            ).1.viewData.lookup (viewSignature c.opts.Namespace vd1.View) ≠ some vd1)
      ∧ (((c.addViewData T ords1 vd1 client1).1.addViewData T ords2 vd2 client2
            ).1.viewData.keys.count (viewSignature c.opts.Namespace vd1.View) = 1)
      ∧ ∀ sig, sig ≠ viewSignature c.opts.Namespace vd1.View →
          ((c.addViewData T ords1 vd1 client1).1.addViewData T ords2 vd2 client2
            ).1.viewData.lookup sig = c.viewData.lookup sig := by
  have hns : (c.addViewData T ords1 vd1 client1).1.opts = c.opts := by
    rw [addViewData_collector]; exact registerOne_opts c _
  have hlook : ((c.addViewData T ords1 vd1 client1).1.addViewData T ords2 vd2 client2
      ).1.viewData.lookup (viewSignature c.opts.Namespace vd1.View) = some vd2 := by
    rw [addViewData_collector, hns, h]
    simp [AList.lookup_insert]
  refine ⟨hlook, ?_, keys_count_of_lookup _ _ _ hlook, ?_⟩
  · intro hne hv
    rw [hlook] at hv
    exact hne (Option.some.inj hv).symm
  · intro sig hsig
    rw [addViewData_collector, hns]
    simp only [registerOne_viewData]
    rw [AList.lookup_insert_ne (by rw [← h]; exact hsig), addViewData_collector]
    simp only [registerOne_viewData]
    rw [AList.lookup_insert_ne hsig]

/-- C7, at a fresh collector and two snapshots of the view `latency`, the
first with one row and the second with two. -/
theorem addViewData_last_write_wins_witness :
    (((newCollector { Namespace := "", Endpoint := "", OnError := none, Tags := [] }
        ).addViewData { newErr := fun _ => none, gauge := fun _ _ => none }
          (fun _ => RangeOrder.asWritten)
          { View := latencyView,
            Rows := [{ Tags := [], Data := .CountData 1 }] }
          { addr := "127.0.0.1:8125", sent := [] }).1.addViewData
          { newErr := fun _ => none, gauge := fun _ _ => none }
          (fun _ => RangeOrder.asWritten)
          { View := latencyView,
            Rows := [{ Tags := [], Data := .CountData 2 },
              { Tags := [], Data := .CountData 3 }] }
          { addr := "127.0.0.1:8125", sent := [] }).1.viewData.lookup "latency"
      = some {
          View := latencyView,
          Rows := [{ Tags := [], Data := .CountData 2 },
            { Tags := [], Data := .CountData 3 }] } :=
  (addViewData_last_write_wins { newErr := fun _ => none, gauge := fun _ _ => none }
    (fun _ => RangeOrder.asWritten) (fun _ => RangeOrder.asWritten)
    (newCollector { Namespace := "", Endpoint := "", OnError := none, Tags := [] })
    { View := latencyView,
      Rows := [{ Tags := [], Data := .CountData 1 }] }
    { View := latencyView,
      Rows := [{ Tags := [], Data := .CountData 2 }, { Tags := [], Data := .CountData 3 }] }
    { addr := "127.0.0.1:8125", sent := [] } { addr := "127.0.0.1:8125", sent := [] }
    (by decide)).1

/-! ## `viewSignature` -/

/-- C8: under one namespace, two views with the same name and the same
ordered list of tag key names have the same signature, whatever their other
fields. -/
theorem viewSignature_congr (namespace_ : String) (v1 v2 : View)
    (hname : v1.Name = v2.Name)
    (hkeys : v1.TagKeys.map Key.Name = v2.TagKeys.map Key.Name) :
    viewSignature namespace_ v1 = viewSignature namespace_ v2 := by
  have hfold : ∀ (ks : List Key) (init : String),
      ks.foldl (fun buf k => buf ++ ("_" ++ k.Name)) init
        = (ks.map Key.Name).foldl (fun buf n => buf ++ ("_" ++ n)) init := by
    intro ks init
    rw [List.foldl_map]
  unfold viewSignature viewName
  rw [hfold, hfold, hkeys, hname]

/-- C8, at two views `latency` with the key `a` that differ in description,
measure and aggregation. -/
theorem viewSignature_congr_witness :
    viewSignature "app"
        { Name := "latency", Description := "first", TagKeys := [{ name := "a" }],
          Measure := "ms", Aggregation := { goType := "*view.Aggregation" } }
      = viewSignature "app"
        { Name := "latency", Description := "second", TagKeys := [{ name := "a" }],
          Measure := "s", Aggregation := { goType := "view.CountAggregation" } } :=
  viewSignature_congr "app" _ _ rfl rfl

/-! ## `ExportView` -/

/-- C9: for a snapshot without rows `ExportView` returns the exporter as it
was: the client has received no Gauge call, the registered views and the stored
snapshots are the same maps, and the signature of the view has the registration
it had before (none, when it had none). -/
theorem ExportView_no_rows (T : Statsd) (ords : Nat → RangeOrder) (e : Exporter)
    (vd : Data) (h : vd.Rows = []) :
    e.ExportView T ords vd = e
      ∧ (e.ExportView T ords vd).d.sent = e.d.sent
      ∧ (e.ExportView T ords vd).c.registeredViews = e.c.registeredViews
      ∧ (e.ExportView T ords vd).c.viewData = e.c.viewData
      ∧ (e.ExportView T ords vd).c.registeredViews.lookup
          (viewSignature e.c.opts.Namespace vd.View)
          = e.c.registeredViews.lookup (viewSignature e.c.opts.Namespace vd.View) := by
  have he : e.ExportView T ords vd = e := by simp [Exporter.ExportView, h]
  rw [he]
  exact ⟨rfl, rfl, rfl, rfl, rfl⟩

/-- C9, at an exporter without registrations and a snapshot without rows:
the view is not registered. -/
theorem ExportView_no_rows_witness :
    (Exporter.ExportView { newErr := fun _ => none, gauge := fun _ _ => none }
        (fun _ => RangeOrder.asWritten)
        { opts := { Namespace := "", Endpoint := "", OnError := none, Tags := [] },
          c := newCollector { Namespace := "", Endpoint := "", OnError := none, Tags := [] },
          d := { addr := "127.0.0.1:8125", sent := [] } }
        { View := latencyView,
          Rows := [] }).c.registeredViews.lookup "latency" = none :=
  ((ExportView_no_rows { newErr := fun _ => none, gauge := fun _ _ => none }
    (fun _ => RangeOrder.asWritten)
    { opts := { Namespace := "", Endpoint := "", OnError := none, Tags := [] },
      c := newCollector { Namespace := "", Endpoint := "", OnError := none, Tags := [] },
      d := { addr := "127.0.0.1:8125", sent := [] } }
    { View := latencyView,
      Rows := [] } rfl).2.2.2.2).trans rfl

/-! ## `NewExporter` -/

/-- Once the gate is shut, `NewExporter` returns no exporter and the
singleton error, and leaves the process as it was. -/
theorem NewExporter_of_done (T : Statsd) (p : Process) (o : Options)
    (h : p.onceDone = true) :
    NewExporter T p o = some ((none, some errSingletonExporter), p) := by
  simp [NewExporter, h]

/-- A call of `NewExporter` that returns leaves the gate shut. -/
theorem NewExporter_shuts (T : Statsd) (p p1 : Process) (o : Options)
    (r : Option Exporter × Option String) (h : NewExporter T p o = some (r, p1)) :
    p1.onceDone = true := by
  unfold NewExporter at h
  by_cases hd : p.onceDone = true
  · simp [hd] at h
    rw [← h.2]; exact hd
  · simp only [hd, Bool.false_eq_true, if_false] at h
    cases hn : newExporter T p o with
    | none => simp [hn] at h
    | some rp =>
      simp [hn] at h
      rw [← h.2]

/-- With the gate shut, every call of a sequence returns no exporter and the
singleton error, and the process stays as it is. -/
theorem NewExporterCalls_of_done (T : Statsd) (p : Process) (os : List Options)
    (h : p.onceDone = true) :
    NewExporterCalls T p os = os.map (fun _ => (none, some errSingletonExporter))
      ∧ NewExporterState T p os = some p := by
  induction os with
  | nil => exact ⟨rfl, rfl⟩
  | cons o os ih =>
    simp [NewExporterCalls, NewExporterState, NewExporter_of_done T p o h, ih]

/-- C10: after a call of `NewExporter` that has returned, every later call,
with any options, returns no exporter and the singleton error and leaves the
process state as it is, so no transport client is constructed; and in every
sequence of calls, from any state, at most one call returns an exporter. -/
theorem NewExporter_singleton (T : Statsd) (p p1 : Process) (o : Options)
    (r : Option Exporter × Option String) (h : NewExporter T p o = some (r, p1))
    (os : List Options) :
    (∀ o2, NewExporter T p1 o2 = some ((none, some errSingletonExporter), p1))
      ∧ NewExporterCalls T p1 os = os.map (fun _ => (none, some errSingletonExporter))
      ∧ NewExporterState T p1 os = some p1
      ∧ (NewExporterState T p1 os).map (fun q => q.clients) = some p1.clients
      ∧ ∀ (q : Process) (qs : List Options),
          ((NewExporterCalls T q qs).filter (fun x => x.1.isSome)).length ≤ 1 := by
  have hd := NewExporter_shuts T p p1 o r h
  have hc := NewExporterCalls_of_done T p1 os hd
  refine ⟨fun o2 => NewExporter_of_done T p1 o2 hd, hc.1, hc.2, by rw [hc.2]; rfl, ?_⟩
  intro q qs
  cases qs with
  | nil => simp [NewExporterCalls]
  | cons a as =>
    unfold NewExporterCalls
    cases hq : NewExporter T q a with
    | none => simp
    | some rq =>
      obtain ⟨r1, q1⟩ := rq
      have hq1 := NewExporter_shuts T q q1 a r1 hq
      simp only [(NewExporterCalls_of_done T q1 as hq1).1]
      rw [List.filter_cons]
      have : List.filter (fun x : Option Exporter × Option String => x.1.isSome)
          (as.map (fun _ => (none, some errSingletonExporter))) = [] := by
        simp [List.filter_eq_nil_iff]
      rw [this]
      split <;> simp

/-- C10, at the state a first call leaves in a fresh process: the two calls
after it, with other options, return no exporter and the singleton error. -/
theorem NewExporter_singleton_witness :
    NewExporterCalls { newErr := fun _ => none, gauge := fun _ _ => none }
        { onceDone := true, printed := ["127.0.0.1:8125"], clients := ["127.0.0.1:8125"] }
        [{ Namespace := "app", Endpoint := "10.0.0.1:8125", OnError := none, Tags := [] },
          { Namespace := "", Endpoint := "", OnError := some 0, Tags := ["env:prod"] }]
      = [(none, some "expecting only one exporter per instance"),
          (none, some "expecting only one exporter per instance")] :=
  (NewExporter_singleton { newErr := fun _ => none, gauge := fun _ _ => none }
    Process.fresh _ { Namespace := "", Endpoint := "", OnError := none, Tags := [] }
    _ rfl _).2.1

/-! ## The calls of a snapshot -/

/-- The calls `submitMetric` makes depend on the iteration order, the view and
the row only: whatever the client and whatever its calls return, the client
receives the calls that a client without history receives. -/
theorem submitMetric_client (T T2 : Statsd) (ord : RangeOrder) (cl : Client) (a : String)
    (v : View) (r : Row) :
    (submitMetric T ord cl v r).1
      = { cl with sent := cl.sent
            ++ (submitMetric T2 ord { addr := a, sent := [] } v r).1.sent } := by
  rcases r with ⟨tags, data⟩
  cases data with
  | CountData x => simp [submitMetric, Client.Gauge]
  | SumData x => simp [submitMetric, Client.Gauge]
  | LastValueData x => simp [submitMetric, Client.Gauge]
  | DistributionData n mn mx me sq b =>
    simp only [submitMetric]
    rw [loop_sent _ _ (fun _ _ => rfl), loop_sent _ _ (fun _ _ => rfl),
      loop_sent _ _ (fun _ _ => rfl), loop_sent _ _ (fun _ _ => rfl)]
    simp
  | other ty => simp [submitMetric]
  | absent => simp [submitMetric]

/-- The loop over the rows of `addViewData`: the client receives, row after
row, the calls of the row. -/
theorem rows_loop_client (T T2 : Statsd) (ords : Nat → RangeOrder) (a : String)
    (v : View) (l : List (Nat × Row)) (cl : Client) :
    l.foldl (fun (cl : Client) ir => (submitMetric T (ords ir.1) cl v ir.2).1) cl
      = { cl with sent := cl.sent
            ++ (l.map (fun ir =>
                (submitMetric T2 (ords ir.1) { addr := a, sent := [] } v ir.2).1.sent)
              ).flatten } := by
  induction l generalizing cl with
  | nil => simp
  | cons ir l ih =>
    rw [List.foldl_cons, ih, submitMetric_client T T2 (ords ir.1) cl a v ir.2]
    simp

/-- The client of the exporter after `ExportView` depends on the client
before, the snapshot and the iteration orders only. -/
theorem ExportView_client (T T2 : Statsd) (ords : Nat → RangeOrder) (e : Exporter)
    (a : String) (vd : Data) :
    (e.ExportView T ords vd).d
      = { e.d with sent := e.d.sent
            ++ (vd.Rows.enum.map (fun ir =>
                (submitMetric T2 (ords ir.1) { addr := a, sent := [] } vd.View ir.2).1.sent)
              ).flatten } := by
  unfold Exporter.ExportView
  split
  · rename_i h
    rw [List.length_eq_zero] at h
    simp [h]
  · simp only [collector.addViewData]
    exact rows_loop_client T T2 ords a vd.View vd.Rows.enum e.d

/-! ## The options and the calls -/

/-- C11: the namespace and the names of the calls.  The calls `ExportView`
makes are the same whatever namespace the exporter and its collector are
configured with.  For the exporter that `NewExporter` returns for the namespace
`app`, the export of a snapshot of the view `latency` with one Count row makes
one call, named `latency`, and `app.` is not a prefix of that name. -/
theorem ExportView_names_ignore_namespace :
    (∀ (T : Statsd) (ords : Nat → RangeOrder) (o : Options) (ns1 ns2 : String)
        (d : Client) (vd : Data),
        (Exporter.ExportView T ords
            { opts := { o with Namespace := ns1 },
              c := newCollector { o with Namespace := ns1 }, d := d } vd).d
          = (Exporter.ExportView T ords
            { opts := { o with Namespace := ns2 },
              c := newCollector { o with Namespace := ns2 }, d := d } vd).d)
      ∧ (NewExporter { newErr := fun _ => none, gauge := fun _ _ => none } Process.fresh
            { Namespace := "app", Endpoint := "", OnError := none, Tags := [] }).map
          (fun r => r.1.1.map (fun e =>
            ((e.ExportView { newErr := fun _ => none, gauge := fun _ _ => none }
              (fun _ => RangeOrder.asWritten)
              { View := latencyView, Rows := [{ Tags := [], Data := .CountData 7 }] }
              ).d.sent.map (fun c => c.name))))
        = some (some ["latency"])
      ∧ ¬ List.IsPrefix "app.".data "latency".data := by
  refine ⟨fun T ords o ns1 ns2 d vd => ?_, by decide, by decide⟩
  rw [ExportView_client T T ords _ "" vd, ExportView_client T T ords _ "" vd]

/-- C12: the global tags and the tags of the calls.  The calls `ExportView`
makes are the same whatever global tags the exporter and its collector are
configured with.  For the exporter that `NewExporter` returns for the global
tags `env:prod`, the export of a snapshot of the view `latency` with one Count
row makes one call, whose only tag is `source:Opencensus`. -/
theorem ExportView_tags_ignore_global_tags :
    (∀ (T : Statsd) (ords : Nat → RangeOrder) (o : Options) (tags1 tags2 : List String)
        (d : Client) (vd : Data),
        (Exporter.ExportView T ords
            { opts := { o with Tags := tags1 },
              c := newCollector { o with Tags := tags1 }, d := d } vd).d
          = (Exporter.ExportView T ords
            { opts := { o with Tags := tags2 },
              c := newCollector { o with Tags := tags2 }, d := d } vd).d)
      ∧ (NewExporter { newErr := fun _ => none, gauge := fun _ _ => none } Process.fresh
            { Namespace := "", Endpoint := "", OnError := none, Tags := ["env:prod"] }).map
          (fun r => r.1.1.map (fun e =>
            ((e.ExportView { newErr := fun _ => none, gauge := fun _ _ => none }
              (fun _ => RangeOrder.asWritten)
              { View := latencyView, Rows := [{ Tags := [], Data := .CountData 7 }] }
              ).d.sent.map (fun c => c.tags))))
        = some (some [["source:Opencensus"]])
      ∧ "env:prod" ∉ ["source:Opencensus"] := by
  refine ⟨fun T ords o tags1 tags2 d vd => ?_, by decide, by decide⟩
  rw [ExportView_client T T ords _ "" vd, ExportView_client T T ords _ "" vd]

/-- C13: the errors of the submissions and the hook.  The exporter that
`ExportView` returns is the same whatever the Gauge calls return, so it keeps
no trace of an error.  With the hook set, at a snapshot whose only row has no
known data, `submitMetric` returns an error, `onError` on that error would
call the hook, and `ExportView` returns the exporter with the view registered
and the snapshot stored and nothing else changed: the hook is not called. -/
theorem ExportView_drops_errors :
    (∀ (T1 T2 : Statsd) (ords : Nat → RangeOrder) (e : Exporter) (vd : Data),
        e.ExportView T1 ords vd = e.ExportView T2 ords vd)
      ∧ (submitMetric { newErr := fun _ => none, gauge := fun _ _ => some "down" }
            RangeOrder.asWritten { addr := "127.0.0.1:8125", sent := [] } latencyView
            { Tags := [], Data := .absent }).2
          = some "aggregation *view.Aggregation is not supported"
      ∧ Options.onError { Namespace := "", Endpoint := "", OnError := some 7, Tags := [] }
            "aggregation *view.Aggregation is not supported"
          = .hook 7 "aggregation *view.Aggregation is not supported"
      ∧ Exporter.ExportView { newErr := fun _ => none, gauge := fun _ _ => some "down" }
            (fun _ => RangeOrder.asWritten)
            { opts := { Namespace := "", Endpoint := "", OnError := some 7, Tags := [] },
              c := newCollector
                { Namespace := "", Endpoint := "", OnError := some 7, Tags := [] },
              d := { addr := "127.0.0.1:8125", sent := [] } }
            { View := latencyView, Rows := [{ Tags := [], Data := .absent }] }
          = { opts := { Namespace := "", Endpoint := "", OnError := some 7, Tags := [] },
              c := { opts := { Namespace := "", Endpoint := "", OnError := some 7,
                               Tags := [] },
                     skipErrors := false,
                     viewData := AList.singleton "latency"
                       { View := latencyView, Rows := [{ Tags := [], Data := .absent }] },
                     registeredViews := AList.singleton "latency" "" },
              d := { addr := "127.0.0.1:8125", sent := [] } } := by
  refine ⟨fun T1 T2 ords e vd => ?_, by decide, by decide, rfl⟩
  have hd := ExportView_client T1 T2 ords e "" vd
  rw [← ExportView_client T2 T2 ords e "" vd] at hd
  unfold Exporter.ExportView at hd ⊢
  split
  · rfl
  · rename_i h
    simp only [h, if_false] at hd
    simp only [collector.addViewData] at hd ⊢
    rw [hd]

/-- C14: the calls of `addViewData` are the calls of its rows, in row order.
The log of the client grows by the concatenation, row after row, of the calls
`submitMetric` makes for the row on a client without history, whatever those
calls return (`T2` is any result oracle); and the client after `addViewData` is
the same under any two result oracles, so an error in one row neither stops
nor alters the submission of the rows after it. -/
theorem addViewData_calls_in_row_order (T T2 : Statsd) (ords : Nat → RangeOrder)
    (c : collector) (vd : Data) (client : Client) :
    (c.addViewData T ords vd client).2.sent
        = client.sent
          ++ (vd.Rows.enum.map (fun ir =>
              (submitMetric T2 (ords ir.1) { addr := client.addr, sent := [] } vd.View
                ir.2).1.sent)).flatten
      ∧ (c.addViewData T ords vd client).2.addr = client.addr
      ∧ (c.addViewData T ords vd client).2 = (c.addViewData T2 ords vd client).2 := by
  have h1 := rows_loop_client T T2 ords client.addr vd.View vd.Rows.enum client
  have h2 := rows_loop_client T2 T2 ords client.addr vd.View vd.Rows.enum client
  simp only [collector.addViewData]
  refine ⟨by rw [h1], by rw [h1], by rw [h1, h2]⟩

/-! ## Entries are kept -/

/-- A round of `registerViews` keeps the registered signatures. -/
theorem registerOne_mem (c : collector) (v : View) (sig : String)
    (h : sig ∈ c.registeredViews) : sig ∈ (c.registerOne v).registeredViews := by
  unfold collector.registerOne
  cases c.registeredViews.lookup (viewSignature c.opts.Namespace v) with
  | none => exact (AList.mem_insert _).2 (Or.inr h)
  | some d => exact h

/-- A round of `registerViews` registers the signature of its view. -/
theorem registerOne_mem_self (c : collector) (v : View) :
    viewSignature c.opts.Namespace v ∈ (c.registerOne v).registeredViews := by
  rw [← AList.lookup_isSome, registerOne_lookup]
  rfl

/-- The loop of `registerViews` keeps the registered signatures. -/
theorem registerViews_mem (c : collector) (views : List View) (sig : String)
    (h : sig ∈ c.registeredViews) : sig ∈ (c.registerViews views).registeredViews := by
  rw [registerViews_eq_foldl]
  induction views generalizing c with
  | nil => exact h
  | cons v vs ih => exact ih (c.registerOne v) (registerOne_mem c v sig h)

/-- The loop of `registerViews` leaves the snapshots as they were. -/
theorem registerViews_viewData (c : collector) (views : List View) :
    (c.registerViews views).viewData = c.viewData := by
  rw [registerViews_eq_foldl]
  induction views generalizing c with
  | nil => rfl
  | cons v vs ih => rw [List.foldl_cons, ih, registerOne_viewData]

/-- What `ExportView` does to the collector: nothing for a snapshot without
rows, and what `addViewData` does otherwise. -/
theorem ExportView_collector (T : Statsd) (ords : Nat → RangeOrder) (e : Exporter)
    (vd : Data) :
    (e.ExportView T ords vd).c
      = if vd.Rows.length = 0 then e.c else (e.c.addViewData T ords vd e.d).1 := by
  unfold Exporter.ExportView
  split <;> rfl

/-- After `addViewData` the registered signatures are those of a round of
`registerViews`. -/
theorem addViewData_registeredViews (T : Statsd) (ords : Nat → RangeOrder) (c : collector)
    (vd : Data) (client : Client) :
    (c.addViewData T ords vd client).1.registeredViews
      = (c.registerOne vd.View).registeredViews := by
  rw [addViewData_collector]

/-- After `addViewData` the stored signatures are those stored before and the
signature of the snapshot. -/
theorem addViewData_mem_viewData (T : Statsd) (ords : Nat → RangeOrder) (c : collector)
    (vd : Data) (client : Client) (sig : String) :
    sig ∈ (c.addViewData T ords vd client).1.viewData
      ↔ sig = viewSignature c.opts.Namespace vd.View ∨ sig ∈ c.viewData := by
  rw [addViewData_collector]
  simp only [registerOne_viewData]
  exact AList.mem_insert _

/-- C15: no call on a collector removes an entry.  For every collector and
every call of `registerViews`, `addViewData` or `ExportView`, a signature that
has a registration before the call has one after it, and a signature that has
a stored snapshot before the call has one after it. -/
theorem collector_after_keeps_entries (c : collector) (call : collector.Call)
    (sig : String) :
    (sig ∈ c.registeredViews → sig ∈ (c.after call).registeredViews)
      ∧ (sig ∈ c.viewData → sig ∈ (c.after call).viewData) := by
  cases call with
  | registerViews views =>
    exact ⟨registerViews_mem c views sig, fun h => by
      simp only [collector.after]; rw [registerViews_viewData]; exact h⟩
  | addViewData T ords vd client =>
    refine ⟨fun h => ?_, fun h => ?_⟩
    · simp only [collector.after]
      rw [addViewData_registeredViews]
      exact registerOne_mem c _ sig h
    · exact (addViewData_mem_viewData T ords c vd client sig).2 (Or.inr h)
  | ExportView T ords opts d vd =>
    simp only [collector.after, ExportView_collector]
    split
    · exact ⟨id, id⟩
    · refine ⟨fun h => ?_, fun h => ?_⟩
      · rw [addViewData_registeredViews]
        exact registerOne_mem c _ sig h
      · exact (addViewData_mem_viewData T ords c vd d sig).2 (Or.inr h)

/-- C15, at a collector that holds the view `latency` and its snapshot, and
a call of `addViewData` for a view `errors`: `latency` keeps its registration. -/
theorem collector_after_keeps_entries_witness :
    "latency" ∈ (collector.after
        { opts := { Namespace := "", Endpoint := "", OnError := none, Tags := [] },
          skipErrors := false,
          viewData := AList.singleton "latency" { View := latencyView, Rows := [] },
          registeredViews := AList.singleton "latency" "" }
        (.addViewData { newErr := fun _ => none, gauge := fun _ _ => none }
          (fun _ => RangeOrder.asWritten)
          { View := { latencyView with Name := "errors" },
            Rows := [{ Tags := [], Data := .CountData 1 }] }
          { addr := "127.0.0.1:8125", sent := [] })).registeredViews :=
  (collector_after_keeps_entries _ _ "latency").1 (by decide)

/-! ## The last base tag, the last result -/

/-- C16: `tagMetrics` keeps only the last base tag.  Without base tags the
result is empty, the row's key names included; with a base list that is not
empty the result is the row's key names in order followed by the last base
tag alone, so a base tag occurs in the result only if it is one of the key
names or equal to the last base tag. -/
theorem tagMetrics_keeps_last_base (t : List Tag) (ct : List String) :
    tagMetrics t [] = []
      ∧ (∀ h : ct ≠ [],
          tagMetrics t ct = t.map (fun tag => tag.Key.Name) ++ [ct.getLast h])
      ∧ (∀ h : ct ≠ [], ∀ x ∈ ct, x ∈ tagMetrics t ct →
          x ∈ t.map (fun tag => tag.Key.Name) ∨ x = ct.getLast h) := by
  have key : ∀ h : ct ≠ [],
      tagMetrics t ct = t.map (fun tag => tag.Key.Name) ++ [ct.getLast h] := by
    intro h
    have hct := List.dropLast_concat_getLast h
    rw [← tagMetrics_last_base t ct.dropLast (ct.getLast h), hct]
  refine ⟨rfl, key, fun h x _ hx => ?_⟩
  rw [key h] at hx
  simpa using hx

/-- C16, at the row keys `a`, `b` and the base tags `x`, `y`, `z`. -/
theorem tagMetrics_keeps_last_base_witness :
    tagMetrics [{ Key := { name := "a" }, Value := "1" },
        { Key := { name := "b" }, Value := "2" }] ["x", "y", "z"]
      = ["a", "b", "z"] :=
  (tagMetrics_keeps_last_base
    [{ Key := { name := "a" }, Value := "1" }, { Key := { name := "b" }, Value := "2" }]
    ["x", "y", "z"]).2.1 (by decide)

/-- The error a loop of Gauge calls returns is what the last call returns,
and that call is made on the client that has received all the calls before. -/
theorem loop_last_result {α : Type} (T : Statsd)
    (f : Client × Option String → α → Client × Option String) (g : α → GaugeCall)
    (hf : ∀ st x, f st x = st.1.Gauge T (g x).name (g x).value (g x).tags (g x).rate)
    (xs : List α) (x : α) (st : Client × Option String) :
    ((xs ++ [x]).foldl f st).2
      = T.gauge { st.1 with sent := st.1.sent ++ xs.map g } (g x) := by
  rw [List.foldl_append, List.foldl_cons, List.foldl_nil, hf,
    loop_sent f g (fun st x => by rw [hf]; rfl) xs st]
  rfl

/-- C17: for a Distribution row with at least one bucket, the error
`submitMetric` returns is the result of the Gauge call for the last bucket, a
call made on the client that has received every earlier call of the row; the
results of the earlier calls play no part. -/
theorem submitMetric_returns_last_bucket_result (T : Statsd) (ord : RangeOrder)
    (client : Client) (v : View) (row : Row) (count : Int)
    (min max mean sumOfSquaredDev : Float) (b : List Int)
    (h : row.Data = .DistributionData count min max mean sumOfSquaredDev b)
    (hb : b ≠ []) :
    (submitMetric T ord client v row).2
        = T.gauge
            { addr := client.addr,
              sent := (submitMetric T ord client v row).1.sent.dropLast }
            { name := v.Name ++ ".count_per_bucket",
              value := Float.ofInt (b.getLast hb),
              tags := tagMetrics row.Tags
                ["source:Opencensus", "bucket_idx" ++ toString (b.length - 1)],
              rate := Float.ofInt 1 }
      ∧ (submitMetric T ord client v row).1.sent.getLast?
        = some
            { name := v.Name ++ ".count_per_bucket",
              value := Float.ofInt (b.getLast hb),
              tags := tagMetrics row.Tags
                ["source:Opencensus", "bucket_idx" ++ toString (b.length - 1)],
              rate := Float.ofInt 1 } := by
  have henum : b.enum = b.dropLast.enum ++ [(b.length - 1, b.getLast hb)] := by
    conv_lhs => rw [← List.dropLast_concat_getLast hb]
    rw [List.enum_append]
    simp [List.enumFrom]
  simp only [submitMetric, h, henum]
  constructor
  · rw [loop_last_result T _
      (fun xb : Nat × Int =>
        ({ name := v.Name ++ ".count_per_bucket", value := Float.ofInt xb.2,
           tags := tagMetrics row.Tags
             ([] ++ ["source:Opencensus"] ++ ["bucket_idx" ++ toString xb.1]),
           rate := Float.ofInt 1 } : GaugeCall))
      (fun _ _ => rfl)]
    rw [loop_sent _ _ (fun _ _ => rfl), loop_sent _ _ (fun _ _ => rfl)]
    simp only [List.map_append, List.map_cons, List.map_nil, ← List.append_assoc,
      List.dropLast_concat]
    rw [loop_sent _ _ (fun _ _ => rfl)]
    simp
  · rw [loop_sent _ _ (fun _ _ => rfl)]
    simp

/-- C17, at a row with the buckets 1, 2 and a client whose calls all fail but
the call for the last bucket: the six calls before fail and `submitMetric`
returns no error. -/
theorem submitMetric_returns_last_bucket_result_witness :
    (submitMetric statsdMostlyDown RangeOrder.asWritten
        { addr := "127.0.0.1:8125", sent := [] } latencyView
        { Tags := [], Data := .DistributionData 4 1 9 5 20 [1, 2] }).2 = none :=
  (submitMetric_returns_last_bucket_result statsdMostlyDown RangeOrder.asWritten
    { addr := "127.0.0.1:8125", sent := [] } latencyView
    { Tags := [], Data := .DistributionData 4 1 9 5 20 [1, 2] } 4 1 9 5 20 [1, 2] rfl
    (by decide)).1.trans (by decide)

/-! ## Stored snapshots are registered -/

/-- A call on a collector in which every stored signature is registered
leaves a collector in which every stored signature is registered. -/
theorem after_stored_registered (c : collector) (call : collector.Call)
    (hinv : ∀ s, s ∈ c.viewData → s ∈ c.registeredViews) :
    ∀ s, s ∈ (c.after call).viewData → s ∈ (c.after call).registeredViews := by
  have hadd : ∀ (T : Statsd) (ords : Nat → RangeOrder) (vd : Data) (client : Client) s,
      s ∈ (c.addViewData T ords vd client).1.viewData →
        s ∈ (c.addViewData T ords vd client).1.registeredViews := by
    intro T ords vd client s hs
    rw [addViewData_registeredViews]
    rcases (addViewData_mem_viewData T ords c vd client s).1 hs with h | h
    · rw [h]; exact registerOne_mem_self c vd.View
    · exact registerOne_mem c _ s (hinv s h)
  intro s hs
  cases call with
  | registerViews views =>
    simp only [collector.after] at hs ⊢
    rw [registerViews_viewData] at hs
    exact registerViews_mem c views s (hinv s hs)
  | addViewData T ords vd client => exact hadd T ords vd client s hs
  | ExportView T ords opts d vd =>
    simp only [collector.after, ExportView_collector] at hs ⊢
    split
    · rename_i h0
      rw [if_pos h0] at hs
      exact hinv s hs
    · rename_i h0
      rw [if_neg h0] at hs
      exact hadd T ords vd d s hs

/-- C18: in every collector reached from `newCollector` by a sequence of calls
of `registerViews`, `addViewData` and `ExportView`, every signature that has a
stored snapshot is a registered signature. -/
theorem stored_signatures_registered (o : Options) (calls : List collector.Call)
    (sig : String) :
    sig ∈ ((newCollector o).afterAll calls).viewData →
      sig ∈ ((newCollector o).afterAll calls).registeredViews := by
  have hall : ∀ (calls : List collector.Call) (c : collector),
      (∀ s, s ∈ c.viewData → s ∈ c.registeredViews) →
        ∀ s, s ∈ (c.afterAll calls).viewData → s ∈ (c.afterAll calls).registeredViews := by
    intro calls
    induction calls with
    | nil => intro c hinv; exact hinv
    | cons call calls ih =>
      intro c hinv
      exact ih (c.after call) (after_stored_registered c call hinv)
  exact hall calls (newCollector o) (fun s hs => absurd hs (AList.not_mem_empty s)) sig

/-- C18, after an export of a snapshot of the view `latency` with one row and
a registration of two other views. -/
theorem stored_signatures_registered_witness :
    "app.latency" ∈ ((newCollector
        { Namespace := "app", Endpoint := "", OnError := none, Tags := [] }).afterAll
        [.ExportView { newErr := fun _ => none, gauge := fun _ _ => none }
            (fun _ => RangeOrder.asWritten)
            { Namespace := "app", Endpoint := "", OnError := none, Tags := [] }
            { addr := "127.0.0.1:8125", sent := [] }
            { View := latencyView, Rows := [{ Tags := [], Data := .CountData 1 }] },
          .registerViews [viewA, viewAB]]).registeredViews :=
  stored_signatures_registered _ _ "app.latency" (by decide)

/-! ## Signatures that collide -/

/-- C19: `viewSignature` is not injective.  The view `a` with the key `b_c`
and the view `a_b` with the key `c` differ in name and in keys and have the same
signature under every namespace, `a_b_c` under the empty one.  On every
collector, `registerViews` for the two registers nothing for the second, and
after `addViewData` for a snapshot of the first and then for a snapshot of the
second the signature holds the snapshot of the second. -/
theorem viewSignature_collision :
    viewA.Name ≠ viewAB.Name
      ∧ viewA.TagKeys.map Key.Name ≠ viewAB.TagKeys.map Key.Name
      ∧ viewSignature "" viewA = "a_b_c" ∧ viewSignature "" viewAB = "a_b_c"
      ∧ (∀ ns, viewSignature ns viewA = viewSignature ns viewAB)
      ∧ (∀ c : collector, c.registerViews [viewA, viewAB] = c.registerViews [viewA])
      ∧ (∀ (T : Statsd) (ords1 ords2 : Nat → RangeOrder) (c : collector)
          (rows1 rows2 : List Row) (client1 client2 : Client),
          ((c.addViewData T ords1 { View := viewA, Rows := rows1 } client1).1.addViewData
              T ords2 { View := viewAB, Rows := rows2 } client2).1.viewData.lookup
            (viewSignature c.opts.Namespace viewA)
            = some { View := viewAB, Rows := rows2 }) := by
  have hsig : ∀ ns, viewSignature ns viewA = viewSignature ns viewAB := by
    intro ns
    simp only [viewSignature, viewName, viewA, viewAB, List.foldl_cons, List.foldl_nil,
      Key.Name, String.append_assoc]
    rfl
  refine ⟨by decide, by decide, by decide, by decide, hsig, fun c => ?_, ?_⟩
  · have hl := registerOne_lookup c viewA
    have h2 : (c.registerOne viewA).registerOne viewAB = c.registerOne viewA :=
      registerOne_of_registered _ _ _ (by rw [registerOne_opts, ← hsig]; exact hl)
    simp [registerViews_eq_foldl, h2]
  · intro T ords1 ords2 c rows1 rows2 client1 client2
    have hns : (c.addViewData T ords1 { View := viewA, Rows := rows1 } client1).1.opts
        = c.opts := by
      rw [addViewData_collector]; exact registerOne_opts c _
    rw [addViewData_collector, hns, hsig]
    simp [AList.lookup_insert]

end Datadog
